import Mathlib

/-!
Verification development for the kagi-ken client library.

The repository has two cores, both embedded here:

* `src/search.js` — HTML search-result extraction (`search`,
  `parseSearchResults`, `extractSearchResult`, `extractGroupedResult`,
  `extractRelatedSearches`).
* `src/summarize.js` — streaming summary extraction (`summarize`,
  `parseStreamingSummary`, `SUPPORTED_LANGUAGES`).

JavaScript values that matter to the control flow (argument truthiness,
JSON payloads, `||` chains) are modelled explicitly.  The HTML document is
abstracted to the exact data the cheerio selectors read; the streaming
body is modelled as a plain string, with a full executable JSON parser
standing in for `JSON.parse`.
-/

namespace KagiKen

/-- A JSON value, the result type of `JSON.parse`.  Numbers are modelled as
rationals (every decimal literal is exact).  `JSON.parse` keeps the last
binding of a duplicated object key; `getField` below encodes that. -/
inductive JsonVal where
  | null
  | bool (b : Bool)
  | num (q : Rat)
  | str (s : String)
  | arr (elems : List JsonVal)
  | obj (fields : List (String × JsonVal))

/-- JavaScript truthiness of a JSON value (`undefined` is represented as
`none` at use sites).  Objects and arrays are always truthy. -/
def jsTruthy : JsonVal → Bool
  | .null => false
  | .bool b => b
  | .num q => q ≠ 0
  | .str s => s ≠ ""
  | .arr _ => true
  | .obj _ => true

/-- Property access `v?.k`: `undefined` (`none`) unless `v` is an object
carrying the key.  For duplicated keys `JSON.parse` keeps the last
occurrence, hence the left fold. -/
def getField : JsonVal → String → Option JsonVal
  | .obj fields, key =>
      fields.foldl (fun acc p => if p.1 = key then some p.2 else acc) none
  | _, _ => none

mutual

/-- `String(v)`, as used when a JSON value is turned into an error
message, mirroring JavaScript coercion.  (For numbers JavaScript prints
decimals; the exact print format is irrelevant to every claim, which only
exercises string values.) -/
def displayJson : JsonVal → String
  | .null => "null"
  | .bool b => if b then "true" else "false"
  | .num q => toString q
  | .str s => s
  | .arr l => String.intercalate "," (displayJsonList l)
  | .obj _ => "[object Object]"

/-- Stringification of each element of an array. -/
def displayJsonList : List JsonVal → List String
  | [] => []
  | v :: rest => displayJson v :: displayJsonList rest

end

/-- The whitespace characters trimmed by `String.prototype.trim` that can
occur in the streamed bodies (ASCII whitespace). -/
def isJsWs (c : Char) : Bool :=
  c = ' ' ∨ c = '\t' ∨ c = '\n' ∨ c = '\r' ∨ c = '\x0b' ∨ c = '\x0c'

/-- Trim on the character-list level. -/
def jsTrimList (l : List Char) : List Char :=
  ((l.dropWhile isJsWs).reverse.dropWhile isJsWs).reverse

/-- `s.trim()`. -/
def jsTrim (s : String) : String := String.mk (jsTrimList s.toList)

/-- `s.startsWith(p)`. -/
def jsStartsWith (s p : String) : Bool := p.toList.isPrefixOf s.toList

/-- Drop the first `n` characters of `s` (used to strip a literal tag
whose presence was already checked, which is what the regex replaces
`replace(/^new_message.json:/, "")` and `replace(/^final:/, "")`
amount to). -/
def jsDrop (s : String) (n : Nat) : String := String.mk (s.toList.drop n)

/-- Split a character list at every occurrence of `sep`
(`String.prototype.split` with a one-character separator: no collapsing,
leading/trailing separators yield empty pieces). -/
def splitOnChar (sep : Char) : List Char → List (List Char)
  | [] => [[]]
  | c :: rest =>
      let r := splitOnChar sep rest
      if c = sep then [] :: r
      else
        match r with
        | h :: t => (c :: h) :: t
        | [] => [[c]]

/-- `s.split("\x00")`. -/
def jsSplitOnNul (s : String) : List String :=
  (splitOnChar '\x00' s.toList).map String.mk

/-! ### A JSON parser modelling `JSON.parse`

Fuel-indexed recursive-descent parser over the JSON grammar: the fuel
only bounds nesting depth, `2 * length + 2` is always enough. -/

/-- Skip JSON whitespace (space, tab, newline, carriage return). -/
def skipWs : List Char → List Char
  | [] => []
  | c :: rest =>
      if c = ' ' ∨ c = '\t' ∨ c = '\n' ∨ c = '\r' then skipWs rest
      else c :: rest

/-- Value of a hexadecimal digit. -/
def hexVal (c : Char) : Option Nat :=
  if '0' ≤ c ∧ c ≤ '9' then some (c.toNat - '0'.toNat)
  else if 'a' ≤ c ∧ c ≤ 'f' then some (c.toNat - 'a'.toNat + 10)
  else if 'A' ≤ c ∧ c ≤ 'F' then some (c.toNat - 'A'.toNat + 10)
  else none

/-- Single-character escape sequences of JSON strings. -/
def escMap : Char → Option Char
  | '"' => some '"'
  | '\\' => some '\\'
  | '/' => some '/'
  | 'b' => some '\x08'
  | 'f' => some '\x0c'
  | 'n' => some '\n'
  | 'r' => some '\r'
  | 't' => some '\t'
  | _ => none

/-- Parse the body of a JSON string after the opening quote; returns the
decoded characters and the remainder after the closing quote.  Raw
control characters are a syntax error, as in `JSON.parse`. -/
def pStringBody : List Char → Option (List Char × List Char)
  | [] => none
  | '"' :: rest => some ([], rest)
  | '\\' :: 'u' :: h1 :: h2 :: h3 :: h4 :: rest =>
      (match hexVal h1, hexVal h2, hexVal h3, hexVal h4 with
       | some a, some b, some c, some d =>
           match pStringBody rest with
           | some (cs, rem) =>
               some (Char.ofNat (((a * 16 + b) * 16 + c) * 16 + d) :: cs, rem)
           | none => none
       | _, _, _, _ => none)
  | '\\' :: e :: rest =>
      if e = 'u' then none
      else
        (match escMap e with
         | some ch =>
             match pStringBody rest with
             | some (cs, rem) => some (ch :: cs, rem)
             | none => none
         | none => none)
  | c :: rest =>
      if c.toNat < 32 then none
      else
        match pStringBody rest with
        | some (cs, rem) => some (c :: cs, rem)
        | none => none

/-- Span of leading decimal digits. -/
def takeDigits : List Char → List Char × List Char
  | [] => ([], [])
  | c :: rest =>
      if c.isDigit then
        let (ds, rem) := takeDigits rest
        (c :: ds, rem)
      else ([], c :: rest)

/-- Numeric value of a digit list. -/
def digitsVal (l : List Char) : Nat :=
  l.foldl (fun acc c => acc * 10 + (c.toNat - '0'.toNat)) 0

/-- Parse a JSON number literal (grammar `-? int frac? exp?`, leading
zeros rejected), producing its exact rational value. -/
def pNumber (cs : List Char) : Option (Rat × List Char) :=
  let (neg, cs1) := match cs with
    | '-' :: rest => (true, rest)
    | _ => (false, cs)
  match cs1 with
  | c :: rest =>
      if c = '0' then pNumberFrac neg [c] rest
      else if c.isDigit then
        let (ds, rem) := takeDigits rest
        pNumberFrac neg (c :: ds) rem
      else none
  | [] => none
where
  /-- Continue after the integer digits: optional fraction and exponent. -/
  pNumberFrac (neg : Bool) (intDigits : List Char) (cs : List Char) :
      Option (Rat × List Char) :=
    let (fracDigits, cs2) := match cs with
      | '.' :: d :: rest =>
          if d.isDigit then
            let (ds, rem) := takeDigits rest
            (some (d :: ds), rem)
          else (none, '.' :: d :: rest)
      | _ => (none, cs)
    match cs2 with
    | '.' :: _ => none
    | _ =>
      let (expVal, cs3) : Option Int × List Char := match cs2 with
        | e :: rest =>
            if e = 'e' ∨ e = 'E' then
              match rest with
              | '+' :: d :: r2 =>
                  if d.isDigit then
                    let (ds, rem) := takeDigits r2
                    (some (Int.ofNat (digitsVal (d :: ds))), rem)
                  else (none, [])
              | '-' :: d :: r2 =>
                  if d.isDigit then
                    let (ds, rem) := takeDigits r2
                    (some (-(Int.ofNat (digitsVal (d :: ds)))), rem)
                  else (none, [])
              | d :: r2 =>
                  if d.isDigit then
                    let (ds, rem) := takeDigits r2
                    (some (Int.ofNat (digitsVal (d :: ds))), rem)
                  else (none, [])
              | [] => (none, [])
            else (some 0, e :: rest)
        | [] => (some 0, [])
      match expVal with
      | none => none
      | some ex =>
          let mantissa : Rat :=
            (digitsVal (intDigits ++ (fracDigits.getD []))) *
              (if neg then (-1 : Rat) else 1)
          let scaled : Rat := mantissa / (10 : Rat) ^ (fracDigits.getD []).length
          let value : Rat :=
            if 0 ≤ ex then scaled * (10 : Rat) ^ ex.toNat
            else scaled / (10 : Rat) ^ (-ex).toNat
          some (value, cs3)

mutual

/-- Parse one JSON value (fuel-indexed). -/
def pValue : Nat → List Char → Option (JsonVal × List Char)
  | 0, _ => none
  | fuel + 1, cs =>
      match skipWs cs with
      | [] => none
      | c :: rest =>
          if c = '"' then
            match pStringBody rest with
            | some (content, rem) => some (.str (String.mk content), rem)
            | none => none
          else if c = '\x7b' then
            match pObjectMembers fuel rest true with
            | some (ms, rem) => some (.obj ms, rem)
            | none => none
          else if c = '[' then
            match pArrayItems fuel rest true with
            | some (vs, rem) => some (.arr vs, rem)
            | none => none
          else if c = 't' then
            match rest with
            | 'r' :: 'u' :: 'e' :: rem => some (.bool true, rem)
            | _ => none
          else if c = 'f' then
            match rest with
            | 'a' :: 'l' :: 's' :: 'e' :: rem => some (.bool false, rem)
            | _ => none
          else if c = 'n' then
            match rest with
            | 'u' :: 'l' :: 'l' :: rem => some (.null, rem)
            | _ => none
          else
            match pNumber (c :: rest) with
            | some (q, rem) => some (.num q, rem)
            | none => none

/-- Parse the items of an array after `[` (or after a `,`). -/
def pArrayItems : Nat → List Char → Bool → Option (List JsonVal × List Char)
  | 0, _, _ => none
  | fuel + 1, cs, first =>
      match skipWs cs with
      | ']' :: rem => if first then some ([], rem) else none
      | cs' =>
          match pValue fuel cs' with
          | some (v, rem) =>
              (match skipWs rem with
               | ',' :: rem2 =>
                   match pArrayItems fuel rem2 false with
                   | some (vs, rem3) => some (v :: vs, rem3)
                   | none => none
               | ']' :: rem2 => some ([v], rem2)
               | _ => none)
          | none => none

/-- Parse the members of an object after the opening brace (or a `,`). -/
def pObjectMembers : Nat → List Char → Bool →
    Option (List (String × JsonVal) × List Char)
  | 0, _, _ => none
  | fuel + 1, cs, first =>
      match skipWs cs with
      | '\x7d' :: rem => if first then some ([], rem) else none
      | '"' :: rest =>
          (match pStringBody rest with
           | some (key, rem) =>
               (match skipWs rem with
                | ':' :: rem2 =>
                    (match pValue fuel rem2 with
                     | some (v, rem3) =>
                         (match skipWs rem3 with
                          | ',' :: rem4 =>
                              (match pObjectMembers fuel rem4 false with
                               | some (ms, rem5) =>
                                   some ((String.mk key, v) :: ms, rem5)
                               | none => none)
                          | '\x7d' :: rem4 =>
                              some ([(String.mk key, v)], rem4)
                          | _ => none)
                     | none => none)
                | _ => none)
           | none => none)
      | _ => none

end

/-- `JSON.parse(s)`: `none` is a syntax error.  Trailing non-whitespace
is rejected, as in JavaScript. -/
def jsonParse (s : String) : Option JsonVal :=
  match pValue (2 * s.length + 2) s.toList with
  | some (v, rem) => if skipWs rem = [] then some v else none
  | none => none

/-! ### JavaScript argument values

Caller arguments reach the validators as arbitrary JavaScript values;
only these shapes are distinguishable by the checks the code performs
(`!x`, `typeof`, comparison with literals, `Number.isInteger`). -/

/-- A JavaScript value passed as a function argument. -/
inductive JsArg where
  | undefined
  | null
  | bool (b : Bool)
  | num (q : Rat)
  | str (s : String)
deriving DecidableEq

/-- JavaScript truthiness of an argument. -/
def jsTruthyArg : JsArg → Bool
  | .undefined => false
  | .null => false
  | .bool b => b
  | .num q => q ≠ 0
  | .str s => s ≠ ""

/-- Does `typeof a === "string"` hold? -/
def isStringArg : JsArg → Bool
  | .str _ => true
  | _ => false

/-- The combined check `!x || typeof x !== "string"`, negated: `x` passes
exactly when it is a non-empty string. -/
def isValidStringArg (a : JsArg) : Bool := jsTruthyArg a && isStringArg a

/-- Template-literal interpolation of an argument. -/
def displayArg : JsArg → String
  | .undefined => "undefined"
  | .null => "null"
  | .bool b => if b then "true" else "false"
  | .num q => toString q
  | .str s => s

/-- An HTTP response as observed by `summarize` after `fetch`: status,
status text and the fully-read streaming text body. -/
structure HttpResponse where
  status : Nat
  statusText : String
  body : String

/-- The status handling shared verbatim by `search` (search.js lines
43-48) and `summarize` (summarize.js lines 121-126): `response.ok` means
status 200-299; 401/403 get the dedicated session-token message; any
other non-2xx status reports the numeric status and status text. -/
def httpStatusError (status : Nat) (statusText : String) : Option String :=
  if 200 ≤ status ∧ status ≤ 299 then none
  else if status = 401 ∨ status = 403 then
    some "Invalid or expired session token"
  else some ("HTTP " ++ toString status ++ ": " ++ statusText)

/-! ### Summarizer (src/summarize.js) -/

/-- The `SUPPORTED_LANGUAGES` constant (summarize.js lines 8-39). -/
def SUPPORTED_LANGUAGES : List String :=
  ["BG", "CS", "DA", "DE", "EL", "EN", "ES", "ET", "FI", "FR", "HU", "ID",
   "IT", "JA", "KO", "LT", "LV", "NB", "NL", "PL", "PT", "RO", "RU", "SK",
   "SL", "SV", "TR", "UK", "ZH", "ZH-HANT"]

/-- `streamData.split("\x00").filter((msg) => msg.trim())`
(summarize.js line 166): the NUL-delimited frames that are not empty or
whitespace-only. -/
def summaryMessages (streamData : String) : List String :=
  (jsSplitOnNul streamData).filter (fun m => jsTrim m ≠ "")

/-- Per-message tag check and strip, in the priority order of the source
(summarize.js lines 177-187): `new_message.json:` first, then `final:`.
On a match the literal tag is removed and the remainder trimmed. -/
def taggedStrip (msg : String) : Option String :=
  if jsStartsWith msg "new_message.json:" then some (jsTrim (jsDrop msg 17))
  else if jsStartsWith msg "final:" then some (jsTrim (jsDrop msg 6))
  else none

/-- The backwards `for` loop of summarize.js lines 174-188, expressed on
the reversed message list: the first (most recent) tagged message wins. -/
def findTaggedJson : List String → Option String
  | [] => none
  | m :: rest =>
      match taggedStrip (jsTrim m) with
      | some s => some s
      | none => findTaggedJson rest

/-- The JSON candidate the code actually selects (summarize.js lines
173-193).  After the loop `jsonString` is `null` (no tagged message) or
the stripped text (possibly empty); `if (!jsonString)` treats both `null`
and the empty string as missing and falls back to the last message,
trimmed but not stripped. -/
def selectedJsonCandidate (messages : List String) : String :=
  match findTaggedJson messages.reverse with
  | some s => if s = "" then jsTrim (messages.getLastD "") else s
  | none => jsTrim (messages.getLastD "")

/-- The candidate selection exactly as the specification words it: the
most recent tagged frame's stripped, trimmed text wins outright; only
when no frame is tagged does the last frame (tag-stripped if a tag is
present, otherwise as-is) serve as fallback. -/
def claimedJsonCandidate (messages : List String) : String :=
  match messages.reverse.findSome? (fun m => taggedStrip (jsTrim m)) with
  | some s => s
  | none =>
      let last := jsTrim (messages.getLastD "")
      (taggedStrip last).getD last

/-- The amended candidate selection: as the claim, except that a tagged
frame whose stripped text is empty also falls back to the last frame,
trimmed as-is (no stripping in the fallback). -/
def amendedJsonCandidate (messages : List String) : String :=
  match messages.reverse.findSome? (fun m => taggedStrip (jsTrim m)) with
  | some s => if s = "" then jsTrim (messages.getLastD "") else s
  | none => jsTrim (messages.getLastD "")

/-- The three failure exits of `parseStreamingSummary`.  `malformedJson`
is the `SyntaxError` branch of the catch; note that the source's catch
block references `jsonString` outside its scope, so the error actually
surfaced there is a `ReferenceError` rather than the formatted message —
the call still fails distinctly either way. -/
inductive SummaryFailure where
  | noData
  | emptySummary
  | malformedJson
deriving DecidableEq

/-- The message carried by each failure (for `malformedJson` the message
of the `ReferenceError` raised inside the catch block, see above). -/
def summaryFailureMessage : SummaryFailure → String
  | .noData => "No summary data received"
  | .emptySummary => "Empty summary received"
  | .malformedJson => "jsonString is not defined"

/-- `parseStreamingSummary` (summarize.js lines 163-210): split into
frames, fail on no data, select the JSON candidate, fail on an empty
candidate, parse it as JSON, fail distinctly on a syntax error. -/
def parseStreamingSummary (streamData : String) : Except SummaryFailure JsonVal :=
  let messages := summaryMessages streamData
  if messages.isEmpty then .error .noData
  else
    let jsonString := selectedJsonCandidate messages
    if jsonString = "" then .error .emptySummary
    else
      match jsonParse jsonString with
      | some v => .ok v
      | none => .error .malformedJson

/-- `parsedResponse?.state === "error"` (summarize.js line 133). -/
def isErrorState (p : JsonVal) : Bool :=
  match getField p "state" with
  | some (.str s) => s = "error"
  | _ => false

/-- `parsedResponse?.reply || "Unknown summarization error"` (line 134):
a falsy `reply` (absent, null, empty string, 0, false) yields the
generic message. -/
def replyFailureMessage (p : JsonVal) : String :=
  match getField p "reply" with
  | some v => if jsTruthy v then displayJson v else "Unknown summarization error"
  | none => "Unknown summarization error"

/-- JavaScript `a || b` on possibly-undefined values (`none` is
`undefined`, which is falsy). -/
def jsOrElse (a b : Option JsonVal) : Option JsonVal :=
  match a with
  | some v => if jsTruthy v then some v else b
  | none => b

/-- The output resolution of summarize.js lines 139-142:
`parsedResponse?.md || parsedResponse?.reply ||
parsedResponse?.output_data?.markdown || ""`. -/
def summarizeOutput (p : JsonVal) : JsonVal :=
  match jsOrElse (jsOrElse (jsOrElse (getField p "md") (getField p "reply"))
      ((getField p "output_data").bind (fun d => getField d "markdown")))
      (some (.str "")) with
  | some v => v
  | none => .str ""

/-- First `some` of a candidate list: the claim's reading of the chain,
where mere presence of the field decides. -/
def firstPresent : List (Option JsonVal) → Option JsonVal
  | [] => none
  | some v :: _ => some v
  | none :: rest => firstPresent rest

/-- The output resolution as claim C3 words it: the first present
(non-absent) of `md`, `reply`, `output_data.markdown`, else `""`. -/
def claimedOutput (p : JsonVal) : JsonVal :=
  (firstPresent [getField p "md", getField p "reply",
    (getField p "output_data").bind (fun d => getField d "markdown")]).getD (.str "")

/-- First truthy value of a candidate list. -/
def firstTruthyVal : List (Option JsonVal) → Option JsonVal
  | [] => none
  | some v :: rest => if jsTruthy v then some v else firstTruthyVal rest
  | none :: rest => firstTruthyVal rest

/-- The amended output resolution: the first *truthy* of `md`, `reply`,
`output_data.markdown` wins; fields that are absent or present with a
falsy value (null, empty string, 0, false) are skipped; if none is
truthy the output is the empty string. -/
def amendedOutput (p : JsonVal) : JsonVal :=
  (firstTruthyVal [getField p "md", getField p "reply",
    (getField p "output_data").bind (fun d => getField d "markdown")]).getD (.str "")

/-- The `options` object of `summarize`; each field is a JavaScript
value, `undefined` fields pick up the destructuring defaults. -/
structure SummOptions where
  type : JsArg
  language : JsArg
  isUrl : JsArg
deriving DecidableEq

/-- `const { type = "summary" } = options || {}`. -/
def optType : Option SummOptions → JsArg
  | none => .str "summary"
  | some o => match o.type with
      | .undefined => .str "summary"
      | v => v

/-- `const { language = "EN" } = options || {}`. -/
def optLanguage : Option SummOptions → JsArg
  | none => .str "EN"
  | some o => match o.language with
      | .undefined => .str "EN"
      | v => v

/-- Is `language` a member of `SUPPORTED_LANGUAGES`
(`Array.prototype.includes` uses strict equality, so only string
arguments can match)? -/
def isSupportedLanguage (language : JsArg) : Bool :=
  match language with
  | .str s => SUPPORTED_LANGUAGES.contains s
  | _ => false

/-- The four argument validations of `summarize` (summarize.js lines
52-72), in source order, returning the first failure message.  All run
before the `try` block containing `fetch`. -/
def validateSummarize (input token typ language : JsArg) : Option String :=
  if !isValidStringArg input then
    some "Input is required and must be a string"
  else if !isValidStringArg token then
    some "Session token is required and must be a string"
  else if !(typ = JsArg.str "summary" ∨ typ = JsArg.str "takeaway") then
    some "Type must be \x27summary\x27 or \x27takeaway\x27"
  else if !isSupportedLanguage language then
    some ("Unsupported language code \x27" ++ displayArg language ++
      "\x27. Supported languages: " ++ String.intercalate ", " SUPPORTED_LANGUAGES)
  else none

/-- The `{ data: { output } }` payload returned by `summarize`. -/
structure SummaryData where
  output : JsonVal

/-- The body-processing part of `summarize` (lines 129-143), after the
HTTP status has been accepted: parse the stream, surface an explicit
error state using its `reply`, otherwise resolve the markdown output. -/
def summarizeBody (body : String) : Except String SummaryData :=
  match parseStreamingSummary body with
  | .error e => .error (summaryFailureMessage e)
  | .ok p =>
      if isErrorState p then .error (replyFailureMessage p)
      else .ok ⟨summarizeOutput p⟩

/-- `summarize(input, token, options)` (summarize.js lines 52-150) with
the network abstracted to the delivered response: validate, check the
status, process the body.  Validation failures never look at the
response, which is the model of "thrown before any network request". -/
def jsSummarize (input token : JsArg) (options : Option SummOptions)
    (resp : HttpResponse) : Except String SummaryData :=
  match validateSummarize input token (optType options) (optLanguage options) with
  | some msg => .error msg
  | none =>
      match httpStatusError resp.status resp.statusText with
      | some msg => .error msg
      | none => summarizeBody resp.body

/-! ### Search (src/search.js)

The cheerio document is abstracted to exactly the data the selectors
read: for each `.search-result` (and each `.sr-group .__srgi`) element
the title-link text, the `href` attribute (`none` when absent), the
description text and the timestamp text; for each
`.related-searches a span` its text.  Each element also records whether
touching it throws — that is what the per-element `try`/`catch` of
`extractSearchResult`/`extractGroupedResult` and the `catch` of
`extractRelatedSearches` exist to handle. -/

/-- One primary or grouped result element. -/
structure SearchElem where
  titleText : String
  href : Option String
  descText : String
  timeText : String
  throws : Bool
deriving DecidableEq

/-- A `t = 0` web-result record: exactly the five keys `t`, `url`,
`title`, `snippet`, `published` of the object literal built at
search.js lines 139-145 (the discriminant `t` is carried by the
`SearchRecord` constructor).  `published` is `none` for JSON `null`. -/
structure WebResult where
  url : String
  title : String
  snippet : String
  published : Option String
deriving DecidableEq

/-- A result record: `t = 0` (web) or `t = 1` (related searches). -/
inductive SearchRecord where
  | web (r : WebResult)
  | related (terms : List String)
deriving DecidableEq

/-- One `.related-searches a span` element. -/
structure SpanElem where
  text : String
  throws : Bool
deriving DecidableEq

/-- The abstracted HTML document.  `primaryThrows` / `groupedThrows`
model the respective selector traversal itself throwing (the failure
mode the whole-function `try` of `parseSearchResults` guards, distinct
from per-element failures). -/
structure SearchDoc where
  primary : List SearchElem
  grouped : List SearchElem
  relatedSpans : List SpanElem
  primaryThrows : Bool
  groupedThrows : Bool
deriving DecidableEq

/-- `extractSearchResult` (search.js lines 120-149): trim title and
snippet, read `href`, trim the timestamp with `|| null`; return `null`
unless both title and url are non-empty; any internal throw also
returns `null`. -/
def extractSearchResult (e : SearchElem) : Option WebResult :=
  if e.throws then none
  else
    match e.href with
    | none => none
    | some url =>
        if jsTrim e.titleText = "" ∨ url = "" then none
        else some ⟨url, jsTrim e.titleText, jsTrim e.descText,
          if jsTrim e.timeText = "" then none else some (jsTrim e.timeText)⟩

/-- `extractGroupedResult` (search.js lines 158-187): byte-for-byte the
same logic as `extractSearchResult`, reading the grouped-result
selectors. -/
def extractGroupedResult (e : SearchElem) : Option WebResult :=
  if e.throws then none
  else
    match e.href with
    | none => none
    | some url =>
        if jsTrim e.titleText = "" ∨ url = "" then none
        else some ⟨url, jsTrim e.titleText, jsTrim e.descText,
          if jsTrim e.timeText = "" then none else some (jsTrim e.timeText)⟩

/-- `extractRelatedSearches` (search.js lines 195-210): collect the
non-empty trimmed span texts; the `relatedSearches` array lives outside
the `try`, so a throw mid-traversal is swallowed and whatever was pushed
so far is returned. -/
def extractRelatedSearches : List SpanElem → List String
  | [] => []
  | sp :: rest =>
      if sp.throws then []
      else
        let term := jsTrim sp.text
        if term = "" then extractRelatedSearches rest
        else term :: extractRelatedSearches rest

/-- The `.each` loops of `parseSearchResults` (lines 75-82 and 86-93):
both iterate their element list with the shared `resultCount`, stop once
`limit` is reached, and push only successful extractions.  Returns the
pushed records and the final count. -/
def collectResults (extract : SearchElem → Option WebResult) (limit : Nat) :
    Nat → List SearchElem → List WebResult × Nat
  | count, [] => ([], count)
  | count, e :: rest =>
      if limit ≤ count then ([], count)
      else
        match extract e with
        | some r =>
            let (l, c) := collectResults extract limit (count + 1) rest
            (r :: l, c)
        | none => collectResults extract limit count rest

/-- The structural-failure message of `parseSearchResults` (line 108). -/
def structuralFailureMessage : String :=
  "Failed to parse search results - unexpected HTML structure"

/-- The related-searches record appended at lines 97-103: present only
when at least one term was found. -/
def relatedTail (doc : SearchDoc) : List SearchRecord :=
  let rel := extractRelatedSearches doc.relatedSpans
  if rel.isEmpty then [] else [.related rel]

/-- `parseSearchResults` (search.js lines 68-111): primary loop, grouped
loop only while the budget remains, related searches always; a throw in
either element traversal fails the whole call with the structural
message (the grouped selector is only touched when the budget remains). -/
def parseSearchResults (doc : SearchDoc) (limit : Nat) :
    Except String (List SearchRecord) :=
  if doc.primaryThrows then .error structuralFailureMessage
  else
    let (prim, c1) := collectResults extractSearchResult limit 0 doc.primary
    if c1 < limit then
      if doc.groupedThrows then .error structuralFailureMessage
      else
        let (grp, _) := collectResults extractGroupedResult limit c1 doc.grouped
        .ok ((prim ++ grp).map .web ++ relatedTail doc)
    else .ok (prim.map .web ++ relatedTail doc)

/-- Default parameter `limit = 10` of `search`. -/
def searchLimitValue : JsArg → JsArg
  | .undefined => .num 10
  | l => l

/-- The limit validation of search.js lines 25-30:
`limit !== undefined && (typeof limit !== "number" || limit < 1 ||
!Number.isInteger(limit))`. -/
def invalidLimitArg (limit : JsArg) : Bool :=
  decide (limit ≠ JsArg.undefined) &&
    (match limit with
     | .num q => decide (q < 1) || decide (q.den ≠ 1)
     | _ => true)

/-- The three argument validations of `search` (search.js lines 16-30),
in source order, on the post-default limit. -/
def validateSearch (query token limit : JsArg) : Option String :=
  if !isValidStringArg query then
    some "Search query is required and must be a string"
  else if !isValidStringArg token then
    some "Session token is required and must be a string"
  else if invalidLimitArg limit then
    some "Limit must be a positive integer"
  else none

/-- The validated limit as a natural number (validation guarantees a
positive integer). -/
def limitNat : JsArg → Nat
  | .num q => q.num.toNat
  | _ => 0

/-- An HTTP response as observed by `search`: status, status text, and
the HTML body already abstracted to a `SearchDoc`. -/
structure SearchHttpResponse where
  status : Nat
  statusText : String
  doc : SearchDoc

/-- `search(query, token, limit)` (search.js lines 16-59) with the
network abstracted to the delivered response: validate, check the
status, parse.  Validation failures never look at the response. -/
def jsSearch (query token limitArg : JsArg) (resp : SearchHttpResponse) :
    Except String (List SearchRecord) :=
  let limit := searchLimitValue limitArg
  match validateSearch query token limit with
  | some msg => .error msg
  | none =>
      match httpStatusError resp.status resp.statusText with
      | some msg => .error msg
      | none => parseSearchResults resp.doc (limitNat limit)

/-! ### Derived notions used by the claims -/

/-- The successfully extractable primary results, in document order. -/
def primaryExtracted (doc : SearchDoc) : List WebResult :=
  doc.primary.filterMap extractSearchResult

/-- The successfully extractable grouped results, in document order. -/
def groupedExtracted (doc : SearchDoc) : List WebResult :=
  doc.grouped.filterMap extractGroupedResult

/-- The `t = 0` records of a result sequence, in order. -/
def webRecords (recs : List SearchRecord) : List WebResult :=
  recs.filterMap (fun r => match r with | .web w => some w | .related _ => none)

/-- The successful result of `parseSearchResults`: primary extractions up
to the limit, then grouped extractions up to the remaining budget, then
the related-searches record when any term was found. -/
def okResult (doc : SearchDoc) (limit : Nat) : List SearchRecord :=
  ((primaryExtracted doc).take limit ++
    (groupedExtracted doc).take (limit - min limit (primaryExtracted doc).length)).map .web
  ++ relatedTail doc

/-- The fixture of the specification's round-trip property: three primary
results, one grouped result, three related-search terms. -/
def fixtureDoc : SearchDoc where
  primary := [⟨"First", some "https://one", "d1", "", false⟩,
              ⟨"Second", some "https://two", "", "Jan 1", false⟩,
              ⟨"Third", some "https://three", "", "", false⟩]
  grouped := [⟨"Grouped", some "https://g", "", "", false⟩]
  relatedSpans := [⟨"r1", false⟩, ⟨"r2", false⟩, ⟨"r3", false⟩]
  primaryThrows := false
  groupedThrows := false

/-- A document whose only primary element lacks a `href` and whose only
related span holds one term. -/
def allFailDoc : SearchDoc where
  primary := [⟨"Title", none, "d", "", false⟩]
  grouped := [⟨"", some "https://x", "", "", false⟩]
  relatedSpans := [⟨"r", false⟩]
  primaryThrows := false
  groupedThrows := false

/-- The JavaScript number `1.5`, written so that its fields reduce. -/
def ratOneHalfPlusOne : Rat := ⟨3, 2, by decide, by decide⟩

/-! ## Helper lemmas -/

/-- Constructor injectivity of `JsonVal.str`, packaged for inequalities. -/
theorem str_ne_of_ne {a b : String} (h : a ≠ b) : JsonVal.str a ≠ JsonVal.str b :=
  fun he => h (JsonVal.str.inj he)

/-- `getLastD` of a non-empty list is a member. -/
theorem getLastD_mem {α : Type _} (l : List α) (d : α) (h : l ≠ []) :
    l.getLastD d ∈ l := by
  induction l with
  | nil => exact absurd rfl h
  | cons a rest ih =>
      cases rest with
      | nil => simp [List.getLastD]
      | cons b t =>
          have : (b :: t).getLastD a ∈ b :: t := ih (by simp)
          simp only [List.getLastD] at this ⊢
          exact List.mem_cons_of_mem a this

/-- Every surviving frame has non-blank trimmed text. -/
theorem summaryMessages_trim_ne (body : String) :
    ∀ m ∈ summaryMessages body, jsTrim m ≠ "" := by
  intro m hm
  have := (List.mem_filter.mp hm).2
  simpa using this

/-- The candidate the code selects is never blank when frames exist: the
tagged branch returns a non-empty string by construction, and both
fallbacks return the trimmed last frame, whose trimmed text survived the
frame filter. -/
theorem selectedJsonCandidate_ne (messages : List String) (h : messages ≠ [])
    (hall : ∀ m ∈ messages, jsTrim m ≠ "") :
    selectedJsonCandidate messages ≠ "" := by
  have hlast : jsTrim (messages.getLastD "") ≠ "" :=
    hall _ (getLastD_mem _ _ h)
  rw [List.getLastD_eq_getLast?] at hlast
  unfold selectedJsonCandidate
  cases hf : findTaggedJson messages.reverse with
  | none => simpa using hlast
  | some s =>
      by_cases hs : s = "" <;> simp [hs, hlast]

/-- The backwards loop is `findSome?` over the reversed frame list. -/
theorem findTaggedJson_eq_findSome (l : List String) :
    findTaggedJson l = l.findSome? (fun m => taggedStrip (jsTrim m)) := by
  induction l with
  | nil => rfl
  | cons m rest ih =>
      simp only [findTaggedJson, List.findSome?_cons]
      cases taggedStrip (jsTrim m) <;> simp [ih]

/-- Closed form of `parseStreamingSummary`: the empty-candidate branch is
unreachable because the selected candidate is never blank. -/
theorem parseStreamingSummary_eq (body : String) :
    parseStreamingSummary body =
      if summaryMessages body = [] then .error .noData
      else
        match jsonParse (selectedJsonCandidate (summaryMessages body)) with
        | some v => .ok v
        | none => .error .malformedJson := by
  unfold parseStreamingSummary
  by_cases h : summaryMessages body = []
  · simp [h]
  · have hne := selectedJsonCandidate_ne _ h (summaryMessages_trim_ne body)
    simp [h, List.isEmpty_iff, hne]

/-- A `||` chain of three possibly-undefined values ending in `""`
returns the first truthy value, or `""` when none is truthy. -/
theorem chainOutput_eq (a b c : Option JsonVal) :
    (match jsOrElse (jsOrElse (jsOrElse a b) c) (some (JsonVal.str "")) with
      | some v => v
      | none => JsonVal.str "") =
    (firstTruthyVal [a, b, c]).getD (JsonVal.str "") := by
  rcases a with _ | va <;> rcases b with _ | vb <;> rcases c with _ | vc <;>
    simp only [jsOrElse, firstTruthyVal] <;>
    first
      | rfl
      | (split_ifs <;> simp_all [firstTruthyVal])

/-- The truthiness chain agrees with "first truthy field wins". -/
theorem summarizeOutput_eq_amended (p : JsonVal) :
    summarizeOutput p = amendedOutput p := by
  unfold summarizeOutput amendedOutput
  exact chainOutput_eq _ _ _

/-- Once the budget is exhausted the loops collect nothing. -/
theorem collectResults_stop (extract : SearchElem → Option WebResult)
    (limit count : Nat) (l : List SearchElem) (h : limit ≤ count) :
    collectResults extract limit count l = ([], count) := by
  cases l with
  | nil => rfl
  | cons e rest => simp [collectResults, h]

/-- Closed form of the `.each` loops: they collect the extractable
results in document order, truncated to the remaining budget, and
advance the count by the number collected. -/
theorem collectResults_eq (extract : SearchElem → Option WebResult) (limit : Nat) :
    ∀ (elems : List SearchElem) (count : Nat),
      collectResults extract limit count elems =
        ((elems.filterMap extract).take (limit - count),
         count + min (limit - count) (elems.filterMap extract).length) := by
  intro elems
  induction elems with
  | nil =>
      intro count
      simp [collectResults]
  | cons e rest ih =>
      intro count
      by_cases hc : limit ≤ count
      · rw [collectResults_stop _ _ _ _ hc]
        have h0 : limit - count = 0 := Nat.sub_eq_zero_of_le hc
        simp [h0]
      · simp only [collectResults, if_neg hc]
        cases hext : extract e with
        | some r =>
            rw [ih (count + 1)]
            have h1 : limit - count = (limit - (count + 1)) + 1 := by omega
            rw [h1]
            simp only [List.filterMap_cons, hext, List.take_succ_cons,
              List.length_cons, Nat.succ_min_succ, Prod.mk.injEq]
            exact ⟨trivial, by omega⟩
        | none =>
            rw [ih count]
            simp [List.filterMap_cons, hext]

/-- A successful parse yields exactly `okResult`. -/
theorem parseSearchResults_ok_eq (doc : SearchDoc) (limit : Nat)
    (hp : doc.primaryThrows = false)
    (hg : doc.groupedThrows = false ∨ limit ≤ (primaryExtracted doc).length) :
    parseSearchResults doc limit = .ok (okResult doc limit) := by
  unfold parseSearchResults okResult
  rw [hp, collectResults_eq]
  have hfoldP : List.filterMap extractSearchResult doc.primary = primaryExtracted doc := rfl
  have hfoldG : List.filterMap extractGroupedResult doc.grouped = groupedExtracted doc := rfl
  rw [hfoldP]
  simp only [Bool.false_eq_true, if_false, Nat.sub_zero, Nat.zero_add]
  by_cases hlt : min limit (primaryExtracted doc).length < limit
  · have hPlt : (primaryExtracted doc).length < limit := by omega
    have hgf : doc.groupedThrows = false := by
      rcases hg with h | h
      · exact h
      · omega
    rw [if_pos hlt, hgf, collectResults_eq, hfoldG]
    simp
  · rw [if_neg hlt]
    have h0 : limit - min limit (primaryExtracted doc).length = 0 := by omega
    rw [h0]
    simp

/-- A throw during the primary traversal fails the whole call. -/
theorem parseSearchResults_error_primary (doc : SearchDoc) (limit : Nat)
    (hp : doc.primaryThrows = true) :
    parseSearchResults doc limit = .error structuralFailureMessage := by
  unfold parseSearchResults
  rw [hp]
  simp

/-- A throw during the grouped traversal, reached because budget remains,
fails the whole call. -/
theorem parseSearchResults_error_grouped (doc : SearchDoc) (limit : Nat)
    (hp : doc.primaryThrows = false) (hg : doc.groupedThrows = true)
    (hlt : (primaryExtracted doc).length < limit) :
    parseSearchResults doc limit = .error structuralFailureMessage := by
  unfold parseSearchResults
  rw [hp, collectResults_eq]
  have hfoldP : List.filterMap extractSearchResult doc.primary = primaryExtracted doc := rfl
  rw [hfoldP]
  simp only [Bool.false_eq_true, if_false, Nat.sub_zero, Nat.zero_add]
  have hmin : min limit (primaryExtracted doc).length < limit := by omega
  rw [if_pos hmin, hg]
  simp

/-- `parseSearchResults` either succeeds with `okResult` or fails with
the structural message. -/
theorem parseSearchResults_cases (doc : SearchDoc) (limit : Nat) :
    parseSearchResults doc limit = .ok (okResult doc limit) ∨
    parseSearchResults doc limit = .error structuralFailureMessage := by
  by_cases hp : doc.primaryThrows = true
  · exact Or.inr (parseSearchResults_error_primary doc limit hp)
  · have hp' : doc.primaryThrows = false := by
      cases h : doc.primaryThrows
      · rfl
      · exact absurd h hp
    by_cases hg : doc.groupedThrows = true
    · by_cases hlt : (primaryExtracted doc).length < limit
      · exact Or.inr (parseSearchResults_error_grouped doc limit hp' hg hlt)
      · exact Or.inl (parseSearchResults_ok_eq doc limit hp' (Or.inr (by omega)))
    · have hg' : doc.groupedThrows = false := by
        cases h : doc.groupedThrows
        · rfl
        · exact absurd h hg
      exact Or.inl (parseSearchResults_ok_eq doc limit hp' (Or.inl hg'))

/-- Inversion: whatever a successful parse returned is `okResult`. -/
theorem parseSearchResults_ok_inv (doc : SearchDoc) (limit : Nat)
    (res : List SearchRecord) (h : parseSearchResults doc limit = .ok res) :
    res = okResult doc limit := by
  rcases parseSearchResults_cases doc limit with hc | hc
  · rw [hc] at h
    exact (Except.ok.inj h).symm
  · rw [hc] at h
    cases h

/-- Mapping `.web` then filtering web records is the identity. -/
theorem webRecords_map_web (l : List WebResult) :
    webRecords (l.map SearchRecord.web) = l := by
  induction l with
  | nil => rfl
  | cons a t ih => simp [webRecords, List.filterMap_cons] at ih ⊢; exact ih

/-- The `t = 0` records of `okResult`: the related tail contributes
nothing. -/
theorem webRecords_okResult (doc : SearchDoc) (limit : Nat) :
    webRecords (okResult doc limit) =
      (primaryExtracted doc).take limit ++
        (groupedExtracted doc).take
          (limit - min limit (primaryExtracted doc).length) := by
  unfold okResult webRecords relatedTail
  rw [List.filterMap_append]
  have h1 := webRecords_map_web
    ((primaryExtracted doc).take limit ++
      (groupedExtracted doc).take (limit - min limit (primaryExtracted doc).length))
  unfold webRecords at h1
  rw [h1]
  by_cases hrel : (extractRelatedSearches doc.relatedSpans).isEmpty <;> simp [hrel]

/-- Without span throws the related extraction is a plain filter-map of
the trimmed non-empty texts. -/
theorem extractRelatedSearches_eq_filterMap (spans : List SpanElem)
    (h : ∀ sp ∈ spans, sp.throws = false) :
    extractRelatedSearches spans =
      spans.filterMap
        (fun sp => if jsTrim sp.text = "" then none else some (jsTrim sp.text)) := by
  induction spans with
  | nil => rfl
  | cons sp rest ih =>
      have hsp : sp.throws = false := h sp (by simp)
      rw [List.filterMap_cons]
      by_cases ht : jsTrim sp.text = "" <;>
        simp [extractRelatedSearches, hsp, ht, ih (fun x hx => h x (by simp [hx]))]

/-- Without span throws, some term survives iff some span trims
non-blank. -/
theorem extractRelatedSearches_ne_nil_iff (spans : List SpanElem)
    (h : ∀ sp ∈ spans, sp.throws = false) :
    extractRelatedSearches spans ≠ [] ↔ ∃ sp ∈ spans, jsTrim sp.text ≠ "" := by
  rw [extractRelatedSearches_eq_filterMap spans h]
  rw [ne_eq, List.filterMap_eq_nil_iff]
  constructor
  · intro hne
    by_contra hex
    push_neg at hex
    exact hne (fun sp hsp => by simp [hex sp hsp])
  · rintro ⟨sp, hsp, hne⟩ hall
    have := hall sp hsp
    simp [hne] at this

/-- What `extractSearchResult` guarantees about an emitted record. -/
theorem extractSearchResult_some (e : SearchElem) (r : WebResult)
    (h : extractSearchResult e = some r) :
    r.url ≠ "" ∧ r.title ≠ "" ∧ r.snippet = jsTrim e.descText ∧
    r.published =
      (if jsTrim e.timeText = "" then none else some (jsTrim e.timeText)) := by
  unfold extractSearchResult at h
  by_cases hth : e.throws = true
  · simp [hth] at h
  · simp only [hth, Bool.false_eq_true, if_false] at h
    split at h
    · cases h
    · rename_i url hurl
      by_cases hcond : jsTrim e.titleText = "" ∨ url = ""
      · rw [if_pos hcond] at h
        cases h
      · rw [if_neg hcond] at h
        push_neg at hcond
        injection h with h2
        subst h2
        exact ⟨hcond.2, hcond.1, rfl, rfl⟩

/-- What `extractGroupedResult` guarantees about an emitted record. -/
theorem extractGroupedResult_some (e : SearchElem) (r : WebResult)
    (h : extractGroupedResult e = some r) :
    r.url ≠ "" ∧ r.title ≠ "" ∧ r.snippet = jsTrim e.descText ∧
    r.published =
      (if jsTrim e.timeText = "" then none else some (jsTrim e.timeText)) := by
  unfold extractGroupedResult at h
  by_cases hth : e.throws = true
  · simp [hth] at h
  · simp only [hth, Bool.false_eq_true, if_false] at h
    split at h
    · cases h
    · rename_i url hurl
      by_cases hcond : jsTrim e.titleText = "" ∨ url = ""
      · rw [if_pos hcond] at h
        cases h
      · rw [if_neg hcond] at h
        push_neg at hcond
        injection h with h2
        subst h2
        exact ⟨hcond.2, hcond.1, rfl, rfl⟩

/-- Every web record of a successful parse traces back to a primary or
grouped element that extracted to it. -/
theorem webRecords_provenance (doc : SearchDoc) (limit : Nat)
    (res : List SearchRecord) (h : parseSearchResults doc limit = .ok res) :
    ∀ r ∈ webRecords res,
      (∃ e ∈ doc.primary, extractSearchResult e = some r) ∨
      (∃ e ∈ doc.grouped, extractGroupedResult e = some r) := by
  intro r hr
  rw [parseSearchResults_ok_inv doc limit res h, webRecords_okResult] at hr
  rcases List.mem_append.mp hr with hm | hm
  · have hm2 : r ∈ primaryExtracted doc := List.take_subset _ _ hm
    unfold primaryExtracted at hm2
    rcases List.mem_filterMap.mp hm2 with ⟨e, he, hee⟩
    exact Or.inl ⟨e, he, hee⟩
  · have hm2 : r ∈ groupedExtracted doc := List.take_subset _ _ hm
    unfold groupedExtracted at hm2
    rcases List.mem_filterMap.mp hm2 with ⟨e, he, hee⟩
    exact Or.inr ⟨e, he, hee⟩

/-! ## Claims -/

/-- C2 counterexample: for the raw body `"new_message.json:"` the single
frame is tagged and strips to the empty string; the claim then selects
the empty candidate, but the code falls back to the unstripped last
frame. -/
theorem claim2_counterexample :
    selectedJsonCandidate (summaryMessages "new_message.json:") = "new_message.json:" ∧
    claimedJsonCandidate (summaryMessages "new_message.json:") = "" ∧
    ("new_message.json:" : String) ≠ "" :=
  ⟨rfl, rfl, by decide⟩

/-- C2 (amended): the summary extractor splits the body on NUL, discards
blank frames, and selects the trimmed tag-stripped text of the most
recent tagged frame when that text is non-empty; if that text is empty,
or no frame carries either tag, the candidate is the last frame trimmed
as-is. -/
theorem claim2_candidate_selection (body : String) :
    selectedJsonCandidate (summaryMessages body) =
      amendedJsonCandidate (summaryMessages body) := by
  unfold selectedJsonCandidate amendedJsonCandidate
  rw [findTaggedJson_eq_findSome]

/-- C6: the stream extractor's failures are exactly: a no-data error when
zero non-blank frames remain; an empty-summary error when the selected
candidate is blank (which, as the candidate is never blank once frames
exist, never fires); a distinct JSON-failure error when the candidate
does not parse; in every other case it returns the parsed payload. -/
theorem claim6_failure_modes (body : String) :
    (parseStreamingSummary body = .error .noData ↔ summaryMessages body = []) ∧
    (parseStreamingSummary body = .error .emptySummary ↔
      summaryMessages body ≠ [] ∧ selectedJsonCandidate (summaryMessages body) = "") ∧
    (parseStreamingSummary body = .error .malformedJson ↔
      summaryMessages body ≠ [] ∧
        jsonParse (selectedJsonCandidate (summaryMessages body)) = none) ∧
    (∀ v, parseStreamingSummary body = .ok v ↔
      summaryMessages body ≠ [] ∧
        jsonParse (selectedJsonCandidate (summaryMessages body)) = some v) := by
  have he := parseStreamingSummary_eq body
  by_cases h : summaryMessages body = []
  · rw [he]
    simp [h]
  · have hne := selectedJsonCandidate_ne _ h (summaryMessages_trim_ne body)
    rw [he]
    cases hj : jsonParse (selectedJsonCandidate (summaryMessages body)) <;>
      simp [h, hj, hne]

/-- C3 counterexample: in the payload `{"md":"","reply":"Z"}` the field
`md` is present, so by the claim it should win and the output should be
`""`; the code's `||` chain skips the falsy empty string and returns
`"Z"`. -/
theorem claim3_counterexample :
    parseStreamingSummary "new_message.json:\x7b\"md\":\"\",\"reply\":\"Z\"\x7d" =
      .ok (.obj [("md", .str ""), ("reply", .str "Z")]) ∧
    jsSummarize (.str "text") (.str "tok") none
      ⟨200, "OK", "new_message.json:\x7b\"md\":\"\",\"reply\":\"Z\"\x7d"⟩ =
      .ok ⟨.str "Z"⟩ ∧
    claimedOutput (.obj [("md", .str ""), ("reply", .str "Z")]) = .str "" ∧
    JsonVal.str "Z" ≠ JsonVal.str "" :=
  ⟨rfl, rfl, rfl, str_ne_of_ne (by decide)⟩

/-- C3 (amended): for every parsed payload not in the error state,
`summarize` resolves the output as the first *truthy* of `md`, `reply`,
`output_data.markdown` — absent fields and present-but-falsy fields are
skipped alike — and the empty string when none is truthy. -/
theorem claim3_output_resolution (input token : JsArg) (options : Option SummOptions)
    (resp : HttpResponse) (p : JsonVal)
    (hv : validateSummarize input token (optType options) (optLanguage options) = none)
    (hs : httpStatusError resp.status resp.statusText = none)
    (hp : parseStreamingSummary resp.body = .ok p)
    (he : isErrorState p = false) :
    jsSummarize input token options resp = .ok ⟨amendedOutput p⟩ := by
  simp [jsSummarize, summarizeBody, hv, hs, hp, he, summarizeOutput_eq_amended]

/-- C3 witness: the legacy `final:` frame with only
`output_data.markdown` populated resolves to that markdown. -/
theorem claim3_witness :
    jsSummarize (.str "x") (.str "tok") none
      ⟨200, "OK", "final:\x7b\"output_data\":\x7b\"markdown\":\"Y\"\x7d\x7d"⟩ =
      .ok ⟨amendedOutput (.obj [("output_data", .obj [("markdown", .str "Y")])])⟩ :=
  claim3_output_resolution (.str "x") (.str "tok") none
    ⟨200, "OK", "final:\x7b\"output_data\":\x7b\"markdown\":\"Y\"\x7d\x7d"⟩
    (.obj [("output_data", .obj [("markdown", .str "Y")])]) rfl rfl rfl rfl

/-- C5 counterexample: in the payload `{"state":"error","reply":""}` the
field `reply` is present, so by the claim the rejection message should be
that reply (the empty string); the code's `||` treats it as falsy and
uses the generic message instead. -/
theorem claim5_counterexample :
    parseStreamingSummary "new_message.json:\x7b\"state\":\"error\",\"reply\":\"\"\x7d" =
      .ok (.obj [("state", .str "error"), ("reply", .str "")]) ∧
    getField (.obj [("state", .str "error"), ("reply", .str "")]) "reply" =
      some (.str "") ∧
    jsSummarize (.str "text") (.str "tok") none
      ⟨200, "OK", "new_message.json:\x7b\"state\":\"error\",\"reply\":\"\"\x7d"⟩ =
      .error "Unknown summarization error" ∧
    ("Unknown summarization error" : String) ≠ "" :=
  ⟨rfl, rfl, rfl, by decide⟩

/-- C5 (amended): when the parsed payload's `state` is `"error"`,
`summarize` fails; the message is the `reply` field when that is a
non-empty string, and the generic message when `reply` is absent, empty
or null. -/
theorem claim5_error_state (input token : JsArg) (options : Option SummOptions)
    (resp : HttpResponse) (p : JsonVal)
    (hv : validateSummarize input token (optType options) (optLanguage options) = none)
    (hs : httpStatusError resp.status resp.statusText = none)
    (hp : parseStreamingSummary resp.body = .ok p)
    (he : isErrorState p = true) :
    (∀ r, getField p "reply" = some (.str r) → r ≠ "" →
        jsSummarize input token options resp = .error r) ∧
    ((getField p "reply" = none ∨ getField p "reply" = some (.str "") ∨
        getField p "reply" = some .null) →
      jsSummarize input token options resp = .error "Unknown summarization error") := by
  have hj : jsSummarize input token options resp = .error (replyFailureMessage p) := by
    simp [jsSummarize, summarizeBody, hv, hs, hp, he]
  constructor
  · intro r hr hne
    rw [hj]
    unfold replyFailureMessage
    rw [hr]
    simp [jsTruthy, hne, displayJson]
  · intro hcase
    rw [hj]
    unfold replyFailureMessage
    rcases hcase with h1 | h1 | h1 <;> rw [h1] <;> simp [jsTruthy]

/-- C5 witness: the spec's concrete instance — payload
`{"state":"error","reply":"quota exceeded"}` rejects with message
`"quota exceeded"`. -/
theorem claim5_witness :
    jsSummarize (.str "text") (.str "tok") none
      ⟨200, "OK", "new_message.json:\x7b\"state\":\"error\",\"reply\":\"quota exceeded\"\x7d"⟩ =
      .error "quota exceeded" :=
  (claim5_error_state (.str "text") (.str "tok") none
      ⟨200, "OK", "new_message.json:\x7b\"state\":\"error\",\"reply\":\"quota exceeded\"\x7d"⟩
      (.obj [("state", .str "error"), ("reply", .str "quota exceeded")])
      rfl rfl rfl rfl).1 "quota exceeded" rfl (by decide)

/-- C7: every invalid-argument shape is rejected with its dedicated
message, uniformly in the response — i.e. before the network is
consulted: non-string or empty query/input/token, a summarization type
outside the two enum values, a language outside the supported set, and a
search limit that is not a positive integer. -/
theorem claim7_validation :
    (∀ (query token limit : JsArg) (resp : SearchHttpResponse),
        isValidStringArg query = false →
        jsSearch query token limit resp =
          .error "Search query is required and must be a string") ∧
    (∀ (query token limit : JsArg) (resp : SearchHttpResponse),
        isValidStringArg query = true → isValidStringArg token = false →
        jsSearch query token limit resp =
          .error "Session token is required and must be a string") ∧
    (∀ (query token limit : JsArg) (resp : SearchHttpResponse),
        isValidStringArg query = true → isValidStringArg token = true →
        invalidLimitArg (searchLimitValue limit) = true →
        jsSearch query token limit resp =
          .error "Limit must be a positive integer") ∧
    (∀ (input token : JsArg) (options : Option SummOptions) (resp : HttpResponse),
        isValidStringArg input = false →
        jsSummarize input token options resp =
          .error "Input is required and must be a string") ∧
    (∀ (input token : JsArg) (options : Option SummOptions) (resp : HttpResponse),
        isValidStringArg input = true → isValidStringArg token = false →
        jsSummarize input token options resp =
          .error "Session token is required and must be a string") ∧
    (∀ (input token : JsArg) (options : Option SummOptions) (resp : HttpResponse),
        isValidStringArg input = true → isValidStringArg token = true →
        ¬(optType options = JsArg.str "summary" ∨ optType options = JsArg.str "takeaway") →
        jsSummarize input token options resp =
          .error "Type must be \x27summary\x27 or \x27takeaway\x27") ∧
    (∀ (input token : JsArg) (options : Option SummOptions) (resp : HttpResponse),
        isValidStringArg input = true → isValidStringArg token = true →
        (optType options = JsArg.str "summary" ∨ optType options = JsArg.str "takeaway") →
        isSupportedLanguage (optLanguage options) = false →
        jsSummarize input token options resp =
          .error ("Unsupported language code \x27" ++ displayArg (optLanguage options) ++
            "\x27. Supported languages: " ++
            String.intercalate ", " SUPPORTED_LANGUAGES)) := by
  refine ⟨?_, ?_, ?_, ?_, ?_, ?_, ?_⟩
  · intro query token limit resp h
    simp [jsSearch, validateSearch, h]
  · intro query token limit resp h1 h2
    simp [jsSearch, validateSearch, h1, h2]
  · intro query token limit resp h1 h2 h3
    simp [jsSearch, validateSearch, h1, h2, h3]
  · intro input token options resp h
    simp [jsSummarize, validateSummarize, h]
  · intro input token options resp h1 h2
    simp [jsSummarize, validateSummarize, h1, h2]
  · intro input token options resp h1 h2 h3
    simp [jsSummarize, validateSummarize, h1, h2, h3]
  · intro input token options resp h1 h2 h3 h4
    simp [jsSummarize, validateSummarize, h1, h2, h3, h4]

/-- C7 witness: concrete rejections, including the spec's limit 0 and
limit 1.5 instances (neither depends on the supplied response). -/
theorem claim7_witness :
    jsSearch (.num 1) (.str "tok") .undefined ⟨200, "OK", allFailDoc⟩ =
      .error "Search query is required and must be a string" ∧
    jsSearch (.str "q") (.str "") .undefined ⟨200, "OK", allFailDoc⟩ =
      .error "Session token is required and must be a string" ∧
    jsSearch (.str "q") (.str "tok") (.num 0) ⟨200, "OK", allFailDoc⟩ =
      .error "Limit must be a positive integer" ∧
    jsSearch (.str "q") (.str "tok") (.num ratOneHalfPlusOne) ⟨200, "OK", allFailDoc⟩ =
      .error "Limit must be a positive integer" ∧
    jsSummarize .undefined (.str "tok") none ⟨200, "OK", "x"⟩ =
      .error "Input is required and must be a string" ∧
    jsSummarize (.str "x") (.str "tok") (some ⟨.str "essay", .undefined, .undefined⟩)
        ⟨200, "OK", "x"⟩ =
      .error "Type must be \x27summary\x27 or \x27takeaway\x27" ∧
    jsSummarize (.str "x") (.str "tok") (some ⟨.undefined, .str "XX", .undefined⟩)
        ⟨200, "OK", "x"⟩ =
      .error ("Unsupported language code \x27" ++ displayArg (.str "XX") ++
        "\x27. Supported languages: " ++
        String.intercalate ", " SUPPORTED_LANGUAGES) :=
  ⟨claim7_validation.1 (.num 1) (.str "tok") .undefined ⟨200, "OK", allFailDoc⟩ rfl,
   claim7_validation.2.1 (.str "q") (.str "") .undefined ⟨200, "OK", allFailDoc⟩ rfl rfl,
   claim7_validation.2.2.1 (.str "q") (.str "tok") (.num 0) ⟨200, "OK", allFailDoc⟩
     rfl rfl rfl,
   claim7_validation.2.2.1 (.str "q") (.str "tok") (.num ratOneHalfPlusOne)
     ⟨200, "OK", allFailDoc⟩ rfl rfl rfl,
   claim7_validation.2.2.2.1 .undefined (.str "tok") none ⟨200, "OK", "x"⟩ rfl,
   claim7_validation.2.2.2.2.2.1 (.str "x") (.str "tok")
     (some ⟨.str "essay", .undefined, .undefined⟩) ⟨200, "OK", "x"⟩ rfl rfl
     (by decide),
   claim7_validation.2.2.2.2.2.2 (.str "x") (.str "tok")
     (some ⟨.undefined, .str "XX", .undefined⟩) ⟨200, "OK", "x"⟩ rfl rfl
     (Or.inl rfl) rfl⟩

/-- The authentication statuses take the dedicated message. -/
theorem httpStatusError_auth (s : Nat) (t : String) (h : s = 401 ∨ s = 403) :
    httpStatusError s t = some "Invalid or expired session token" := by
  rcases h with h | h <;> subst h <;> rfl

/-- Any other non-2xx status reports the code and status text. -/
theorem httpStatusError_other (s : Nat) (t : String)
    (h1 : ¬(200 ≤ s ∧ s ≤ 299)) (h2 : s ≠ 401) (h3 : s ≠ 403) :
    httpStatusError s t = some ("HTTP " ++ toString s ++ ": " ++ t) := by
  unfold httpStatusError
  rw [if_neg h1, if_neg (fun hc => hc.elim h2 h3)]

/-- A 2xx status passes the check. -/
theorem httpStatusError_ok (s : Nat) (t : String) (h : 200 ≤ s ∧ s ≤ 299) :
    httpStatusError s t = none := by
  unfold httpStatusError
  rw [if_pos h]

/-- C8: with valid arguments, a 401/403 response fails both operations
with the dedicated session-token message, any other non-2xx response
fails them with the numeric status and status text, and a 2xx response
proceeds to body parsing. -/
theorem claim8_status_handling (query token limitArg : JsArg)
    (sresp : SearchHttpResponse) (input mtoken : JsArg)
    (options : Option SummOptions) (mresp : HttpResponse)
    (hvs : validateSearch query token (searchLimitValue limitArg) = none)
    (hvm : validateSummarize input mtoken (optType options) (optLanguage options) = none) :
    ((sresp.status = 401 ∨ sresp.status = 403) →
        jsSearch query token limitArg sresp =
          .error "Invalid or expired session token") ∧
    ((mresp.status = 401 ∨ mresp.status = 403) →
        jsSummarize input mtoken options mresp =
          .error "Invalid or expired session token") ∧
    (¬(200 ≤ sresp.status ∧ sresp.status ≤ 299) →
        sresp.status ≠ 401 → sresp.status ≠ 403 →
        jsSearch query token limitArg sresp =
          .error ("HTTP " ++ toString sresp.status ++ ": " ++ sresp.statusText)) ∧
    (¬(200 ≤ mresp.status ∧ mresp.status ≤ 299) →
        mresp.status ≠ 401 → mresp.status ≠ 403 →
        jsSummarize input mtoken options mresp =
          .error ("HTTP " ++ toString mresp.status ++ ": " ++ mresp.statusText)) ∧
    ((200 ≤ sresp.status ∧ sresp.status ≤ 299) →
        jsSearch query token limitArg sresp =
          parseSearchResults sresp.doc (limitNat (searchLimitValue limitArg))) ∧
    ((200 ≤ mresp.status ∧ mresp.status ≤ 299) →
        jsSummarize input mtoken options mresp = summarizeBody mresp.body) := by
  refine ⟨?_, ?_, ?_, ?_, ?_, ?_⟩
  · intro h
    simp [jsSearch, hvs, httpStatusError_auth _ _ h]
  · intro h
    simp [jsSummarize, hvm, httpStatusError_auth _ _ h]
  · intro h1 h2 h3
    simp [jsSearch, hvs, httpStatusError_other _ _ h1 h2 h3]
  · intro h1 h2 h3
    simp [jsSummarize, hvm, httpStatusError_other _ _ h1 h2 h3]
  · intro h
    simp [jsSearch, hvs, httpStatusError_ok _ _ h]
  · intro h
    simp [jsSummarize, hvm, httpStatusError_ok _ _ h]

/-- C8 witness: one response from each status class, for each
operation. -/
theorem claim8_witness :
    jsSearch (.str "q") (.str "tok") .undefined ⟨401, "Unauthorized", allFailDoc⟩ =
      .error "Invalid or expired session token" ∧
    jsSummarize (.str "x") (.str "tok") none ⟨403, "Forbidden", "x"⟩ =
      .error "Invalid or expired session token" ∧
    jsSearch (.str "q") (.str "tok") .undefined ⟨404, "Not Found", allFailDoc⟩ =
      .error ("HTTP " ++ toString (404 : Nat) ++ ": " ++ "Not Found") ∧
    jsSummarize (.str "x") (.str "tok") none ⟨500, "Server Error", "x"⟩ =
      .error ("HTTP " ++ toString (500 : Nat) ++ ": " ++ "Server Error") ∧
    jsSearch (.str "q") (.str "tok") .undefined ⟨200, "OK", allFailDoc⟩ =
      parseSearchResults allFailDoc (limitNat (searchLimitValue .undefined)) ∧
    jsSummarize (.str "x") (.str "tok") none ⟨204, "No Content", "x"⟩ =
      summarizeBody "x" :=
  ⟨(claim8_status_handling (.str "q") (.str "tok") .undefined
      ⟨401, "Unauthorized", allFailDoc⟩ (.str "x") (.str "tok") none
      ⟨403, "Forbidden", "x"⟩ rfl rfl).1 (Or.inl rfl),
   (claim8_status_handling (.str "q") (.str "tok") .undefined
      ⟨401, "Unauthorized", allFailDoc⟩ (.str "x") (.str "tok") none
      ⟨403, "Forbidden", "x"⟩ rfl rfl).2.1 (Or.inr rfl),
   (claim8_status_handling (.str "q") (.str "tok") .undefined
      ⟨404, "Not Found", allFailDoc⟩ (.str "x") (.str "tok") none
      ⟨500, "Server Error", "x"⟩ rfl rfl).2.2.1 (by decide) (by decide) (by decide),
   (claim8_status_handling (.str "q") (.str "tok") .undefined
      ⟨404, "Not Found", allFailDoc⟩ (.str "x") (.str "tok") none
      ⟨500, "Server Error", "x"⟩ rfl rfl).2.2.2.1 (by decide) (by decide) (by decide),
   (claim8_status_handling (.str "q") (.str "tok") .undefined
      ⟨200, "OK", allFailDoc⟩ (.str "x") (.str "tok") none
      ⟨204, "No Content", "x"⟩ rfl rfl).2.2.2.2.1 (by decide),
   (claim8_status_handling (.str "q") (.str "tok") .undefined
      ⟨200, "OK", allFailDoc⟩ (.str "x") (.str "tok") none
      ⟨204, "No Content", "x"⟩ rfl rfl).2.2.2.2.2 (by decide)⟩

/-- C1: a successful parse carries exactly
`min n (extractable primary + grouped)` web records, primary extractions
(in document order) before grouped ones; when some related span trims
non-blank, exactly one `t = 1` record closes the sequence, whatever `n`
was; when none does, no `t = 1` record appears. -/
theorem claim1_limit_and_related (doc : SearchDoc) (n : Nat) (res : List SearchRecord)
    (hn : 1 ≤ n) (hres : parseSearchResults doc n = .ok res)
    (hspans : ∀ sp ∈ doc.relatedSpans, sp.throws = false) :
    webRecords res =
      (primaryExtracted doc).take n ++
        (groupedExtracted doc).take (n - min n (primaryExtracted doc).length) ∧
    (webRecords res).length =
      min n ((primaryExtracted doc).length + (groupedExtracted doc).length) ∧
    ((∃ sp ∈ doc.relatedSpans, jsTrim sp.text ≠ "") →
      res = (webRecords res).map SearchRecord.web ++
        [.related (extractRelatedSearches doc.relatedSpans)]) ∧
    ((∀ sp ∈ doc.relatedSpans, jsTrim sp.text = "") →
      res = (webRecords res).map SearchRecord.web) := by
  have hok := parseSearchResults_ok_inv doc n res hres
  subst hok
  have hweb := webRecords_okResult doc n
  refine ⟨hweb, ?_, ?_, ?_⟩
  · rw [hweb, List.length_append, List.length_take, List.length_take]
    omega
  · intro hex
    have hne : extractRelatedSearches doc.relatedSpans ≠ [] :=
      (extractRelatedSearches_ne_nil_iff _ hspans).mpr hex
    rw [hweb]
    unfold okResult relatedTail
    simp [List.isEmpty_iff, hne]
  · intro hall
    have hrel : extractRelatedSearches doc.relatedSpans = [] := by
      by_contra hne
      rcases (extractRelatedSearches_ne_nil_iff _ hspans).mp hne with ⟨sp, hsp, hne2⟩
      exact hne2 (hall sp hsp)
    rw [hweb]
    unfold okResult relatedTail
    simp [hrel]

/-- C1 witness: the round-trip fixture (three primary, one grouped,
three related terms) with limit 2 yields the first two primary records
plus the full related record. -/
theorem claim1_witness :
    webRecords [SearchRecord.web ⟨"https://one", "First", "d1", none⟩,
        SearchRecord.web ⟨"https://two", "Second", "", some "Jan 1"⟩,
        SearchRecord.related ["r1", "r2", "r3"]] =
      (primaryExtracted fixtureDoc).take 2 ++
        (groupedExtracted fixtureDoc).take
          (2 - min 2 (primaryExtracted fixtureDoc).length) ∧
    (webRecords [SearchRecord.web ⟨"https://one", "First", "d1", none⟩,
        SearchRecord.web ⟨"https://two", "Second", "", some "Jan 1"⟩,
        SearchRecord.related ["r1", "r2", "r3"]]).length =
      min 2 ((primaryExtracted fixtureDoc).length +
        (groupedExtracted fixtureDoc).length) ∧
    ((∃ sp ∈ fixtureDoc.relatedSpans, jsTrim sp.text ≠ "") →
      [SearchRecord.web ⟨"https://one", "First", "d1", none⟩,
        SearchRecord.web ⟨"https://two", "Second", "", some "Jan 1"⟩,
        SearchRecord.related ["r1", "r2", "r3"]] =
        (webRecords [SearchRecord.web ⟨"https://one", "First", "d1", none⟩,
          SearchRecord.web ⟨"https://two", "Second", "", some "Jan 1"⟩,
          SearchRecord.related ["r1", "r2", "r3"]]).map SearchRecord.web ++
          [.related (extractRelatedSearches fixtureDoc.relatedSpans)]) ∧
    ((∀ sp ∈ fixtureDoc.relatedSpans, jsTrim sp.text = "") →
      [SearchRecord.web ⟨"https://one", "First", "d1", none⟩,
        SearchRecord.web ⟨"https://two", "Second", "", some "Jan 1"⟩,
        SearchRecord.related ["r1", "r2", "r3"]] =
        (webRecords [SearchRecord.web ⟨"https://one", "First", "d1", none⟩,
          SearchRecord.web ⟨"https://two", "Second", "", some "Jan 1"⟩,
          SearchRecord.related ["r1", "r2", "r3"]]).map SearchRecord.web) :=
  claim1_limit_and_related fixtureDoc 2
    [SearchRecord.web ⟨"https://one", "First", "d1", none⟩,
     SearchRecord.web ⟨"https://two", "Second", "", some "Jan 1"⟩,
     SearchRecord.related ["r1", "r2", "r3"]]
    (by decide) rfl (by decide)

/-- C4: every emitted web record has a non-empty url and title; an
element whose extraction fails contributes no record and leaves the
budget unchanged (without raising: extraction is `none`-valued, never a
thrown error); a document where every element fails still parses
successfully, to the related-searches-only (possibly empty) result. -/
theorem claim4_fault_tolerance :
    (∀ (doc : SearchDoc) (limit : Nat) (res : List SearchRecord),
        parseSearchResults doc limit = .ok res →
        ∀ r ∈ webRecords res, r.url ≠ "" ∧ r.title ≠ "") ∧
    (∀ (e : SearchElem), extractSearchResult e = none →
        ∀ (limit count : Nat) (rest : List SearchElem),
          collectResults extractSearchResult limit count (e :: rest) =
            collectResults extractSearchResult limit count rest) ∧
    (∀ (e : SearchElem), extractGroupedResult e = none →
        ∀ (limit count : Nat) (rest : List SearchElem),
          collectResults extractGroupedResult limit count (e :: rest) =
            collectResults extractGroupedResult limit count rest) ∧
    (∀ (doc : SearchDoc) (limit : Nat),
        doc.primaryThrows = false → doc.groupedThrows = false →
        (∀ e ∈ doc.primary, extractSearchResult e = none) →
        (∀ e ∈ doc.grouped, extractGroupedResult e = none) →
        parseSearchResults doc limit = .ok (relatedTail doc)) := by
  refine ⟨?_, ?_, ?_, ?_⟩
  · intro doc limit res h r hr
    rcases webRecords_provenance doc limit res h r hr with ⟨e, _, hee⟩ | ⟨e, _, hee⟩
    · exact ⟨(extractSearchResult_some e r hee).1, (extractSearchResult_some e r hee).2.1⟩
    · exact ⟨(extractGroupedResult_some e r hee).1, (extractGroupedResult_some e r hee).2.1⟩
  · intro e hnone limit count rest
    rw [collectResults_eq, collectResults_eq, List.filterMap_cons, hnone]
  · intro e hnone limit count rest
    rw [collectResults_eq, collectResults_eq, List.filterMap_cons, hnone]
  · intro doc limit hp hg h1 h2
    have hP : primaryExtracted doc = [] := List.filterMap_eq_nil_iff.mpr h1
    have hG : groupedExtracted doc = [] := List.filterMap_eq_nil_iff.mpr h2
    rw [parseSearchResults_ok_eq doc limit hp (Or.inl hg)]
    unfold okResult
    rw [hP, hG]
    simp

/-- C4 witness: the fixture's records all carry url and title; an
element without `href` changes nothing; the all-failing document still
parses, to its related-searches-only result. -/
theorem claim4_witness :
    (∀ r ∈ webRecords [SearchRecord.web ⟨"https://one", "First", "d1", none⟩,
        SearchRecord.web ⟨"https://two", "Second", "", some "Jan 1"⟩,
        SearchRecord.related ["r1", "r2", "r3"]], r.url ≠ "" ∧ r.title ≠ "") ∧
    collectResults extractSearchResult 10 0
        [⟨"Title", none, "d", "", false⟩] =
      collectResults extractSearchResult 10 0 [] ∧
    parseSearchResults allFailDoc 10 = .ok (relatedTail allFailDoc) :=
  ⟨claim4_fault_tolerance.1 fixtureDoc 2
      [SearchRecord.web ⟨"https://one", "First", "d1", none⟩,
       SearchRecord.web ⟨"https://two", "Second", "", some "Jan 1"⟩,
       SearchRecord.related ["r1", "r2", "r3"]] rfl,
   claim4_fault_tolerance.2.1 ⟨"Title", none, "d", "", false⟩ rfl 10 0 [],
   claim4_fault_tolerance.2.2.2 allFailDoc 10 rfl rfl (by decide) (by decide)⟩

/-- C9: every emitted web record is built by one of the two extractors
from some element, so it carries exactly the record structure's five
fields, with `snippet` the trimmed description text (empty when none)
and `published` the trimmed timestamp when non-blank and `null` (`none`)
otherwise — in particular `published` is never the empty string. -/
theorem claim9_record_shape (doc : SearchDoc) (limit : Nat) (res : List SearchRecord)
    (hres : parseSearchResults doc limit = .ok res) :
    ∀ r ∈ webRecords res,
      (∃ e, (e ∈ doc.primary ∨ e ∈ doc.grouped) ∧
          r.snippet = jsTrim e.descText ∧
          r.published =
            (if jsTrim e.timeText = "" then none else some (jsTrim e.timeText))) ∧
      (∀ s, r.published = some s → s ≠ "") := by
  intro r hr
  have hpub : ∀ (e : SearchElem),
      r.published = (if jsTrim e.timeText = "" then none
        else some (jsTrim e.timeText)) →
      ∀ s, r.published = some s → s ≠ "" := by
    intro e hp s hs
    rw [hp] at hs
    by_cases ht : jsTrim e.timeText = ""
    · rw [if_pos ht] at hs
      cases hs
    · rw [if_neg ht] at hs
      injection hs with hs2
      subst hs2
      exact ht
  rcases webRecords_provenance doc limit res hres r hr with ⟨e, he, hee⟩ | ⟨e, he, hee⟩
  · have hf := extractSearchResult_some e r hee
    exact ⟨⟨e, Or.inl he, hf.2.2.1, hf.2.2.2⟩, hpub e hf.2.2.2⟩
  · have hf := extractGroupedResult_some e r hee
    exact ⟨⟨e, Or.inr he, hf.2.2.1, hf.2.2.2⟩, hpub e hf.2.2.2⟩

/-- C9 witness: the fixture's second record, whose timestamp was
found. -/
theorem claim9_witness :
    (∃ e, (e ∈ fixtureDoc.primary ∨ e ∈ fixtureDoc.grouped) ∧
        (⟨"https://two", "Second", "", some "Jan 1"⟩ : WebResult).snippet =
          jsTrim e.descText ∧
        (⟨"https://two", "Second", "", some "Jan 1"⟩ : WebResult).published =
          (if jsTrim e.timeText = "" then none else some (jsTrim e.timeText))) ∧
    (∀ s, (⟨"https://two", "Second", "", some "Jan 1"⟩ : WebResult).published =
        some s → s ≠ "") :=
  claim9_record_shape fixtureDoc 2
    [SearchRecord.web ⟨"https://one", "First", "d1", none⟩,
     SearchRecord.web ⟨"https://two", "Second", "", some "Jan 1"⟩,
     SearchRecord.related ["r1", "r2", "r3"]] rfl
    ⟨"https://two", "Second", "", some "Jan 1"⟩ (by decide)

/-- The related-searches traversal keeps what was pushed before a
throw: the array lives outside the `try`. -/
theorem extractRelatedSearches_until_throw (sp : SpanElem) (rest : List SpanElem)
    (hsp : sp.throws = true) :
    ∀ pre : List SpanElem, (∀ x ∈ pre, x.throws = false) →
      extractRelatedSearches (pre ++ sp :: rest) =
        pre.filterMap
          (fun x => if jsTrim x.text = "" then none else some (jsTrim x.text)) := by
  intro pre
  induction pre with
  | nil =>
      intro _
      simp [extractRelatedSearches, hsp]
  | cons x pre' ih =>
      intro hpre
      have hx : x.throws = false := hpre x (by simp)
      rw [List.cons_append, List.filterMap_cons]
      by_cases ht : jsTrim x.text = "" <;>
        simp [extractRelatedSearches, hx, ht,
          ih (fun y hy => hpre y (by simp [hy]))]

/-- C10 counterexample: related spans `[" a ", throwing]` — the
traversal throws, yet the extractor returns `["a"]`, not the empty list
the claim states. -/
theorem claim10_counterexample :
    (∃ sp ∈ ([⟨" a ", false⟩, ⟨"x", true⟩] : List SpanElem), sp.throws = true) ∧
    extractRelatedSearches [⟨" a ", false⟩, ⟨"x", true⟩] = ["a"] ∧
    (["a"] : List String) ≠ [] :=
  ⟨⟨⟨"x", true⟩, by simp, rfl⟩, rfl, by simp⟩

/-- C10 (amended): a failure inside related-search extraction never
fails the call — whatever the related spans do, the parse succeeds when
the primary/grouped traversals do not throw; a throw mid-traversal
returns the terms collected before it (so the `t = 1` record is omitted
only when none were collected); a primary-traversal throw, by contrast,
fails the whole call with the structural message. -/
theorem claim10_related_isolation :
    (∀ (doc : SearchDoc) (limit : Nat),
        doc.primaryThrows = false → doc.groupedThrows = false →
        parseSearchResults doc limit = .ok (okResult doc limit)) ∧
    (∀ (pre : List SpanElem) (sp : SpanElem) (rest : List SpanElem),
        (∀ x ∈ pre, x.throws = false) → sp.throws = true →
        extractRelatedSearches (pre ++ sp :: rest) =
          pre.filterMap
            (fun x => if jsTrim x.text = "" then none else some (jsTrim x.text))) ∧
    (∀ (doc : SearchDoc) (limit : Nat), doc.primaryThrows = true →
        parseSearchResults doc limit = .error structuralFailureMessage) :=
  ⟨fun doc limit hp hg => parseSearchResults_ok_eq doc limit hp (Or.inl hg),
   fun pre sp rest hpre hsp => extractRelatedSearches_until_throw sp rest hsp pre hpre,
   fun doc limit hp => parseSearchResults_error_primary doc limit hp⟩

/-- C10 witness: a document whose related traversal throws mid-way still
parses successfully; the partial term survives; the primary-throw
document fails structurally. -/
theorem claim10_witness :
    parseSearchResults ⟨[], [], [⟨" a ", false⟩, ⟨"x", true⟩], false, false⟩ 10 =
      .ok (okResult ⟨[], [], [⟨" a ", false⟩, ⟨"x", true⟩], false, false⟩ 10) ∧
    extractRelatedSearches ([⟨" a ", false⟩] ++ (⟨"x", true⟩ : SpanElem) :: []) =
      [(⟨" a ", false⟩ : SpanElem)].filterMap
        (fun x => if jsTrim x.text = "" then none else some (jsTrim x.text)) ∧
    parseSearchResults ⟨[], [], [], true, false⟩ 10 =
      .error structuralFailureMessage :=
  ⟨claim10_related_isolation.1 ⟨[], [], [⟨" a ", false⟩, ⟨"x", true⟩], false, false⟩
      10 rfl rfl,
   claim10_related_isolation.2.1 [⟨" a ", false⟩] ⟨"x", true⟩ [] (by decide) rfl,
   claim10_related_isolation.2.2 ⟨[], [], [], true, false⟩ 10 rfl⟩

end KagiKen
